import Mathlib

/-!
Verification of the guardrail-enforcement core of the api-fuzzer toolkit.

The data model (`Limits`, `Timeouts`, `Safety`, `Profile`, the runtime flags)
and the evaluator `enforce_guardrails` are shallow embeddings of the Rust
definitions in `src/main.rs`.  Rust `u32`/`u64`/`usize` fields become `Nat`
(the evaluator only compares them, never performs wrapping arithmetic, so the
modular reduction is irrelevant); `Vec<String>` becomes `List String`; the
`HashMap<String, String>` of forced headers becomes an association list.
`anyhow::Result<()>` becomes the explicit `Verdict` type: each `bail!` site of
the source is one rejection constructor, in source order, and `Ok(())` is
`Permitted`.

URL parsing (`url::Url::parse` composed with `host_str`) lives in an external
crate, so the evaluator is parameterised over the host-extraction function
`parse_host : String → Option String`; `none` is the "no scheme+host" outcome
that the source turns into the invalid-base-url rejection.  A concrete model
of that parser, `spec_parse_host`, is provided for evaluating the theorems on
concrete profiles.
-/

/-- One `bail!` site of `enforce_guardrails`, named after the spec's error
taxonomy (§7). -/
inductive Reason where
  | SandboxRequired
  | InvalidBaseUrl
  | HostNotAllowed
  | MethodNotAllowed
  | RateCeilingExceeded
  | EmptyBudget
deriving DecidableEq, Repr

/-- The evaluator's output: `Ok(())` of the source is `Permitted`, every
`bail!`/early `Err` is `Rejected` with the corresponding reason. -/
inductive Verdict where
  | Permitted
  | Rejected (reason : Reason)
deriving DecidableEq, Repr

/-- `struct Limits` of `src/main.rs`. -/
structure Limits where
  concurrency : Nat
  rate_per_sec : Nat
  request_budget : Nat
  max_rate_per_sec : Nat
  allowed_methods : List String
deriving DecidableEq, Repr

/-- `struct Timeouts` of `src/main.rs`. -/
structure Timeouts where
  connect_ms : Nat
  read_ms : Nat
deriving DecidableEq, Repr

/-- `struct Safety` of `src/main.rs`; the forced-header map is modelled as an
association list. -/
structure Safety where
  require_sandbox_flag : Bool
  allowlist_hosts : List String
  force_headers : List (String × String) := []
deriving DecidableEq, Repr

/-- `struct Profile` of `src/main.rs`. -/
structure Profile where
  name : String
  base_url : String
  endpoint : String
  method : String
  limits : Limits
  timeouts : Timeouts
  safety : Safety
deriving DecidableEq, Repr

/-- The runtime flags consumed by the evaluator: the `sandbox` and `dry_run`
fields of `struct Args` in `src/main.rs` (the profile path is consumed by the
external loader, not by the evaluator). -/
structure RuntimeFlags where
  sandbox_requested : Bool
  dry_run : Bool
deriving DecidableEq, Repr

/-- Rust's `u8::to_ascii_lowercase`, lifted to characters: maps `A`–`Z` to
`a`–`z` and leaves every other character unchanged. -/
def to_ascii_lowercase (c : Char) : Char :=
  if 65 ≤ c.toNat ∧ c.toNat ≤ 90 then Char.ofNat (c.toNat + 32) else c

/-- Rust's `str::eq_ignore_ascii_case`: equality after ASCII-lowercasing each
character (non-ASCII characters are compared verbatim). -/
def eq_ignore_ascii_case (a b : String) : Bool :=
  a.data.map to_ascii_lowercase == b.data.map to_ascii_lowercase

/-- Splits a character list at the first occurrence of `"://"`, returning the
part before it and the part after it, or `none` when it does not occur. -/
def split_scheme_sep : List Char → Option (List Char × List Char)
  | [] => none
  | ':' :: '/' :: '/' :: rest => some ([], rest)
  | c :: rest => (split_scheme_sep rest).map fun p => (c :: p.1, p.2)

/-- Modelled from the spec: the external URL parser (`url::Url::parse`
followed by `host_str`) is not part of this repository; per spec §3,
`base_url` "must parse to a scheme+host".  This model accepts strings of the
shape `scheme "://" host suffix` with a nonempty alphabetic scheme and a
nonempty host (stopping at `/`, `?`, `#` or a space), and returns the host. -/
def spec_parse_host (s : String) : Option String :=
  match split_scheme_sep s.data with
  | none => none
  | some (scheme, rest) =>
    if scheme.isEmpty || !scheme.all Char.isAlpha then
      none
    else
      let host := rest.takeWhile fun c => c != '/' && c != '?' && c != '#' && c != ' '
      if host.isEmpty then none else some (String.mk host)

/-- `enforce_guardrails` of `src/main.rs`, parameterised over the external
host-extraction function.  Each branch mirrors one check of the source, in
source order; `parse_host p.base_url = none` is the `ok().and_then(host_str)`
failure that the source rejects as an invalid base URL. -/
def enforce_guardrails (parse_host : String → Option String)
    (p : Profile) (args : RuntimeFlags) : Verdict :=
  if p.safety.require_sandbox_flag && !args.sandbox_requested then
    .Rejected .SandboxRequired
  else
    match parse_host p.base_url with
    | none => .Rejected .InvalidBaseUrl
    | some host =>
      if !(p.safety.allowlist_hosts.any fun h => eq_ignore_ascii_case h host) then
        .Rejected .HostNotAllowed
      else if !(p.limits.allowed_methods.any fun m => eq_ignore_ascii_case m p.method) then
        .Rejected .MethodNotAllowed
      else if p.limits.rate_per_sec > p.limits.max_rate_per_sec then
        .Rejected .RateCeilingExceeded
      else if p.limits.request_budget == 0 then
        .Rejected .EmptyBudget
      else
        .Permitted

/-- The reasons of all failing checks, in the fixed check order of the source.
Each entry is computed independently of the others, so the head of this list
is the earliest-ordered violation. -/
def check_failures (parse_host : String → Option String)
    (p : Profile) (args : RuntimeFlags) : List Reason :=
  (if p.safety.require_sandbox_flag && !args.sandbox_requested then
    [Reason.SandboxRequired] else []) ++
  (match parse_host p.base_url with
   | none => [Reason.InvalidBaseUrl]
   | some _ => []) ++
  (match parse_host p.base_url with
   | none => []
   | some host =>
     if p.safety.allowlist_hosts.any fun h => eq_ignore_ascii_case h host then []
     else [Reason.HostNotAllowed]) ++
  (if p.limits.allowed_methods.any fun m => eq_ignore_ascii_case m p.method then []
   else [Reason.MethodNotAllowed]) ++
  (if p.limits.rate_per_sec > p.limits.max_rate_per_sec then
    [Reason.RateCeilingExceeded] else []) ++
  (if p.limits.request_budget == 0 then [Reason.EmptyBudget] else [])

/-- The end-to-end profile of spec §8: every check passes. -/
def goodProfile : Profile :=
  { name := "demo"
    base_url := "https://sandbox.example"
    endpoint := "/"
    method := "GET"
    limits :=
      { concurrency := 1
        rate_per_sec := 1
        request_budget := 10
        max_rate_per_sec := 5
        allowed_methods := ["GET"] }
    timeouts := { connect_ms := 1000, read_ms := 1000 }
    safety :=
      { require_sandbox_flag := true
        allowlist_hosts := ["sandbox.example"]
        force_headers := [] } }

/-- A profile that violates every check at once: unparsable URL, empty
allowlist, disallowed method, rate above ceiling, zero budget, and a sandbox
requirement. -/
def badProfile : Profile :=
  { name := "bad"
    base_url := "not a url"
    endpoint := "/"
    method := "DELETE"
    limits :=
      { concurrency := 1
        rate_per_sec := 99
        request_budget := 0
        max_rate_per_sec := 1
        allowed_methods := ["GET"] }
    timeouts := { connect_ms := 0, read_ms := 0 }
    safety :=
      { require_sandbox_flag := true
        allowlist_hosts := []
        force_headers := [] } }

/-- C1: when the profile requires the sandbox flag and the flags do not
request it, the evaluator rejects with `SandboxRequired`, for every
host-extraction function and regardless of every other profile field. -/
theorem sandbox_required_first (parse_host : String → Option String)
    (p : Profile) (args : RuntimeFlags)
    (hreq : p.safety.require_sandbox_flag = true)
    (hflag : args.sandbox_requested = false) :
    enforce_guardrails parse_host p args = .Rejected .SandboxRequired := by
  simp [enforce_guardrails, hreq, hflag]

/-- C1 witness: the all-violating profile (unparsable URL, disallowed method,
excessive rate, zero budget) is still rejected as `SandboxRequired`. -/
theorem sandbox_required_first_witness :
    enforce_guardrails spec_parse_host badProfile ⟨false, false⟩ =
      .Rejected .SandboxRequired :=
  sandbox_required_first spec_parse_host badProfile ⟨false, false⟩ rfl rfl

/-- C2 counterexample: a profile whose `base_url` does not parse ("not a url")
but which also requires the sandbox flag, evaluated with the sandbox not
requested, is rejected as `SandboxRequired`, not `InvalidBaseUrl`. -/
theorem invalid_url_counterexample :
    spec_parse_host badProfile.base_url = none ∧
    enforce_guardrails spec_parse_host badProfile ⟨false, false⟩ ≠
      .Rejected .InvalidBaseUrl := by
  constructor
  · decide
  · decide

/-- C2 (amended): when the sandbox check passes (the profile does not require
the flag, or the flags request the sandbox), a `base_url` with no parsable
scheme-and-host is rejected as `InvalidBaseUrl`. -/
theorem invalid_url_rejected (parse_host : String → Option String)
    (p : Profile) (args : RuntimeFlags)
    (hsand : p.safety.require_sandbox_flag = false ∨ args.sandbox_requested = true)
    (hurl : parse_host p.base_url = none) :
    enforce_guardrails parse_host p args = .Rejected .InvalidBaseUrl := by
  rcases hsand with h | h <;> simp [enforce_guardrails, h, hurl]

/-- C2 witness: the all-violating profile, with the sandbox requested, is
rejected as `InvalidBaseUrl` under the modelled parser. -/
theorem invalid_url_rejected_witness :
    enforce_guardrails spec_parse_host badProfile ⟨true, false⟩ =
      .Rejected .InvalidBaseUrl :=
  invalid_url_rejected spec_parse_host badProfile ⟨true, false⟩ (Or.inr rfl) (by decide)

/-- C3: the evaluator returns `Permitted` exactly when no check fails, and
otherwise the reason of the earliest-ordered failing check — never a later
reason and never a combined list. -/
theorem first_failure_reported (parse_host : String → Option String)
    (p : Profile) (args : RuntimeFlags) :
    enforce_guardrails parse_host p args =
      match check_failures parse_host p args with
      | [] => .Permitted
      | r :: _ => .Rejected r := by
  unfold enforce_guardrails check_failures
  cases hs : p.safety.require_sandbox_flag && !args.sandbox_requested
  case true => simp only [hs]; simp
  case false =>
    cases hu : parse_host p.base_url with
    | none => simp only [hs, hu]; simp
    | some host =>
      cases hh : p.safety.allowlist_hosts.any fun h => eq_ignore_ascii_case h host
      case false => simp only [hs, hu, hh]; simp
      case true =>
        cases hm : p.limits.allowed_methods.any fun m => eq_ignore_ascii_case m p.method
        case false => simp only [hs, hu, hh, hm]; simp
        case true =>
          by_cases hr : p.limits.rate_per_sec > p.limits.max_rate_per_sec
          case pos => simp only [hs, hu, hh, hm]; simp [hr]
          case neg =>
            cases hb : p.limits.request_budget == 0
            case true => simp only [hs, hu, hh, hm, hb]; simp [hr]
            case false => simp only [hs, hu, hh, hm, hb]; simp [hr]

/-- When the profile does not require the sandbox flag, or the flags request
the sandbox, the first check's condition is false. -/
theorem sandbox_check_passes {p : Profile} {args : RuntimeFlags}
    (hsand : p.safety.require_sandbox_flag = false ∨ args.sandbox_requested = true) :
    (p.safety.require_sandbox_flag && !args.sandbox_requested) = false := by
  rcases hsand with h | h <;> simp [h]

/-- C4: past the sandbox and URL checks, the evaluator rejects with
`HostNotAllowed` exactly when the parsed host matches no allowlist entry
case-insensitively; in particular an empty allowlist always rejects. -/
theorem host_allowlist_decides (parse_host : String → Option String)
    (p : Profile) (args : RuntimeFlags) (host : String)
    (hsand : p.safety.require_sandbox_flag = false ∨ args.sandbox_requested = true)
    (hurl : parse_host p.base_url = some host) :
    enforce_guardrails parse_host p args = .Rejected .HostNotAllowed ↔
      (p.safety.allowlist_hosts.any fun h => eq_ignore_ascii_case h host) = false := by
  unfold enforce_guardrails
  simp only [sandbox_check_passes hsand, hurl]
  cases hh : p.safety.allowlist_hosts.any fun h => eq_ignore_ascii_case h host
  case false => simp
  case true =>
    simp only [Bool.not_true, Bool.false_eq_true, if_false, Bool.true_eq_false, iff_false]
    split
    case isTrue => simp
    case isFalse =>
      split
      case isTrue => simp
      case isFalse =>
        split <;> simp

/-- C4 witness: the §8 profile with its allowlist emptied is rejected as
`HostNotAllowed`. -/
theorem host_allowlist_decides_witness :
    enforce_guardrails spec_parse_host
      { goodProfile with safety := { goodProfile.safety with allowlist_hosts := [] } }
      ⟨true, false⟩ = .Rejected .HostNotAllowed :=
  (host_allowlist_decides spec_parse_host
    { goodProfile with safety := { goodProfile.safety with allowlist_hosts := [] } }
    ⟨true, false⟩ "sandbox.example" (Or.inr rfl) (by decide)).mpr (by decide)

/-- C5: past the sandbox, URL and host checks, the evaluator rejects with
`MethodNotAllowed` exactly when the method matches no allowed method
case-insensitively, and a case-insensitive match passes the method check, with
`Permitted` following once the rate and budget checks also pass. -/
theorem method_policy_case_insensitive (parse_host : String → Option String)
    (p : Profile) (args : RuntimeFlags) (host : String)
    (hsand : p.safety.require_sandbox_flag = false ∨ args.sandbox_requested = true)
    (hurl : parse_host p.base_url = some host)
    (hhost : (p.safety.allowlist_hosts.any fun h => eq_ignore_ascii_case h host) = true) :
    (enforce_guardrails parse_host p args = .Rejected .MethodNotAllowed ↔
      (p.limits.allowed_methods.any fun m => eq_ignore_ascii_case m p.method) = false) ∧
    ((p.limits.allowed_methods.any fun m => eq_ignore_ascii_case m p.method) = true →
      p.limits.rate_per_sec ≤ p.limits.max_rate_per_sec →
      p.limits.request_budget ≠ 0 →
      enforce_guardrails parse_host p args = .Permitted) := by
  unfold enforce_guardrails
  simp only [sandbox_check_passes hsand, hurl, hhost]
  constructor
  · cases hm : p.limits.allowed_methods.any fun m => eq_ignore_ascii_case m p.method
    case false => simp
    case true =>
      simp only [Bool.not_true, Bool.false_eq_true, if_false, Bool.true_eq_false, iff_false]
      split
      case isTrue => simp
      case isFalse => split <;> simp
  · intro hm hrate hbudget
    simp [hm, Nat.not_lt.mpr hrate, hbudget]

/-- C5 witness: with the §8 profile otherwise passing, method `DELETE`
against allowed methods `GET`/`POST` is rejected as `MethodNotAllowed`, while
method `get` against allowed method `GET` is permitted. -/
theorem method_policy_case_insensitive_witness :
    enforce_guardrails spec_parse_host
      { goodProfile with
          method := "DELETE"
          limits := { goodProfile.limits with allowed_methods := ["GET", "POST"] } }
      ⟨true, false⟩ = .Rejected .MethodNotAllowed ∧
    enforce_guardrails spec_parse_host
      { goodProfile with method := "get" } ⟨true, false⟩ = .Permitted :=
  ⟨(method_policy_case_insensitive spec_parse_host
      { goodProfile with
          method := "DELETE"
          limits := { goodProfile.limits with allowed_methods := ["GET", "POST"] } }
      ⟨true, false⟩ "sandbox.example" (Or.inr rfl) (by decide) (by decide)).1.mpr (by decide),
   (method_policy_case_insensitive spec_parse_host
      { goodProfile with method := "get" }
      ⟨true, false⟩ "sandbox.example" (Or.inr rfl) (by decide) (by decide)).2
      (by decide) (by decide) (by decide)⟩

/-- C6: past the sandbox, URL, host and method checks, the evaluator rejects
with `RateCeilingExceeded` exactly when the configured rate strictly exceeds
the ceiling; equality passes the check. -/
theorem rate_ceiling_inclusive (parse_host : String → Option String)
    (p : Profile) (args : RuntimeFlags) (host : String)
    (hsand : p.safety.require_sandbox_flag = false ∨ args.sandbox_requested = true)
    (hurl : parse_host p.base_url = some host)
    (hhost : (p.safety.allowlist_hosts.any fun h => eq_ignore_ascii_case h host) = true)
    (hmeth : (p.limits.allowed_methods.any fun m => eq_ignore_ascii_case m p.method) = true) :
    enforce_guardrails parse_host p args = .Rejected .RateCeilingExceeded ↔
      p.limits.rate_per_sec > p.limits.max_rate_per_sec := by
  unfold enforce_guardrails
  simp only [sandbox_check_passes hsand, hurl, hhost, hmeth]
  by_cases hr : p.limits.rate_per_sec > p.limits.max_rate_per_sec
  case pos => simp [hr]
  case neg =>
    cases hb : p.limits.request_budget == 0 <;> simp [hr, hb]

/-- C6 witness: rate 50 over ceiling 10 is rejected as `RateCeilingExceeded`;
rate 10 at ceiling 10 is not rejected for the rate (and is in fact
permitted). -/
theorem rate_ceiling_inclusive_witness :
    enforce_guardrails spec_parse_host
      { goodProfile with
          limits := { goodProfile.limits with rate_per_sec := 50, max_rate_per_sec := 10 } }
      ⟨true, false⟩ = .Rejected .RateCeilingExceeded ∧
    enforce_guardrails spec_parse_host
      { goodProfile with
          limits := { goodProfile.limits with rate_per_sec := 10, max_rate_per_sec := 10 } }
      ⟨true, false⟩ ≠ .Rejected .RateCeilingExceeded :=
  ⟨(rate_ceiling_inclusive spec_parse_host
      { goodProfile with
          limits := { goodProfile.limits with rate_per_sec := 50, max_rate_per_sec := 10 } }
      ⟨true, false⟩ "sandbox.example" (Or.inr rfl) (by decide) (by decide)
      (by decide)).mpr (by decide),
   fun h => absurd ((rate_ceiling_inclusive spec_parse_host
      { goodProfile with
          limits := { goodProfile.limits with rate_per_sec := 10, max_rate_per_sec := 10 } }
      ⟨true, false⟩ "sandbox.example" (Or.inr rfl) (by decide) (by decide)
      (by decide)).mp h) (by decide)⟩

/-- C7: past the first five checks, a zero request budget is rejected as
`EmptyBudget` and any positive budget yields `Permitted`. -/
theorem budget_positivity (parse_host : String → Option String)
    (p : Profile) (args : RuntimeFlags) (host : String)
    (hsand : p.safety.require_sandbox_flag = false ∨ args.sandbox_requested = true)
    (hurl : parse_host p.base_url = some host)
    (hhost : (p.safety.allowlist_hosts.any fun h => eq_ignore_ascii_case h host) = true)
    (hmeth : (p.limits.allowed_methods.any fun m => eq_ignore_ascii_case m p.method) = true)
    (hrate : p.limits.rate_per_sec ≤ p.limits.max_rate_per_sec) :
    (p.limits.request_budget = 0 →
      enforce_guardrails parse_host p args = .Rejected .EmptyBudget) ∧
    (1 ≤ p.limits.request_budget →
      enforce_guardrails parse_host p args = .Permitted) := by
  unfold enforce_guardrails
  simp only [sandbox_check_passes hsand, hurl, hhost, hmeth]
  constructor
  · intro hb
    simp [hb, Nat.not_lt.mpr hrate]
  · intro hb
    simp [Nat.not_lt.mpr hrate, Nat.pos_iff_ne_zero.mp hb]

/-- C7 witness: the §8 profile with budget 0 is rejected as `EmptyBudget`,
and with its budget of 10 it is permitted. -/
theorem budget_positivity_witness :
    enforce_guardrails spec_parse_host
      { goodProfile with limits := { goodProfile.limits with request_budget := 0 } }
      ⟨true, false⟩ = .Rejected .EmptyBudget ∧
    enforce_guardrails spec_parse_host goodProfile ⟨true, false⟩ = .Permitted :=
  ⟨(budget_positivity spec_parse_host
      { goodProfile with limits := { goodProfile.limits with request_budget := 0 } }
      ⟨true, false⟩ "sandbox.example" (Or.inr rfl) (by decide) (by decide) (by decide)
      (by decide)).1 rfl,
   (budget_positivity spec_parse_host goodProfile
      ⟨true, false⟩ "sandbox.example" (Or.inr rfl) (by decide) (by decide) (by decide)
      (by decide)).2 (by decide)⟩

/-- C8: the evaluator is a total function into `Verdict`: on every input it
returns either `Permitted` or an ordinary `Rejected` value carrying one of the
enumerated reasons — every `bail!` of the source is a returned error value,
not a panic or abort. -/
theorem evaluator_total (parse_host : String → Option String)
    (p : Profile) (args : RuntimeFlags) :
    enforce_guardrails parse_host p args = .Permitted ∨
      ∃ r : Reason, enforce_guardrails parse_host p args = .Rejected r := by
  cases h : enforce_guardrails parse_host p args with
  | Permitted => exact Or.inl rfl
  | Rejected r => exact Or.inr ⟨r, rfl⟩

/-- C9: the verdict never depends on the dry-run flag: two runtime-flag values
agreeing on `sandbox_requested` produce the same verdict on every profile,
whatever their `dry_run` fields. -/
theorem verdict_ignores_dry_run (parse_host : String → Option String)
    (p : Profile) (a b : RuntimeFlags)
    (h : a.sandbox_requested = b.sandbox_requested) :
    enforce_guardrails parse_host p a = enforce_guardrails parse_host p b := by
  unfold enforce_guardrails
  rw [h]

/-- C9 witness: the §8 profile evaluates identically with `dry_run` off and
on. -/
theorem verdict_ignores_dry_run_witness :
    enforce_guardrails spec_parse_host goodProfile ⟨true, false⟩ =
      enforce_guardrails spec_parse_host goodProfile ⟨true, true⟩ :=
  verdict_ignores_dry_run spec_parse_host goodProfile ⟨true, false⟩ ⟨true, true⟩ rfl

/-- C10: a zero configured rate is never rejected for the rate — the ceiling
check cannot fire at rate 0, whatever the ceiling (including 0) — and a
profile passing every other check with rate 0 is permitted. -/
theorem zero_rate_never_rejected (parse_host : String → Option String)
    (p : Profile) (args : RuntimeFlags)
    (hzero : p.limits.rate_per_sec = 0) :
    enforce_guardrails parse_host p args ≠ .Rejected .RateCeilingExceeded ∧
    (∀ host : String,
      (p.safety.require_sandbox_flag = false ∨ args.sandbox_requested = true) →
      parse_host p.base_url = some host →
      (p.safety.allowlist_hosts.any fun h => eq_ignore_ascii_case h host) = true →
      (p.limits.allowed_methods.any fun m => eq_ignore_ascii_case m p.method) = true →
      p.limits.request_budget ≠ 0 →
      enforce_guardrails parse_host p args = .Permitted) := by
  constructor
  · unfold enforce_guardrails
    cases hs : p.safety.require_sandbox_flag && !args.sandbox_requested
    case true => simp
    case false =>
      cases hu : parse_host p.base_url with
      | none => simp
      | some host =>
        cases hh : p.safety.allowlist_hosts.any fun h => eq_ignore_ascii_case h host
        case false => simp [hh]
        case true =>
          cases hm : p.limits.allowed_methods.any fun m => eq_ignore_ascii_case m p.method
          case false => simp [hh, hm]
          case true =>
            cases hb : p.limits.request_budget == 0 <;>
              simp [hh, hm, hb, hzero]
  · intro host hsand hurl hhost hmeth hbudget
    unfold enforce_guardrails
    simp [sandbox_check_passes hsand, hurl, hhost, hmeth, hbudget, hzero]

/-- C10 witness: the §8 profile with rate 0 under ceiling 0 is permitted, and
in particular not rejected for the rate. -/
theorem zero_rate_never_rejected_witness :
    enforce_guardrails spec_parse_host
      { goodProfile with
          limits := { goodProfile.limits with rate_per_sec := 0, max_rate_per_sec := 0 } }
      ⟨true, false⟩ ≠ .Rejected .RateCeilingExceeded ∧
    enforce_guardrails spec_parse_host
      { goodProfile with
          limits := { goodProfile.limits with rate_per_sec := 0, max_rate_per_sec := 0 } }
      ⟨true, false⟩ = .Permitted :=
  ⟨(zero_rate_never_rejected spec_parse_host
      { goodProfile with
          limits := { goodProfile.limits with rate_per_sec := 0, max_rate_per_sec := 0 } }
      ⟨true, false⟩ rfl).1,
   (zero_rate_never_rejected spec_parse_host
      { goodProfile with
          limits := { goodProfile.limits with rate_per_sec := 0, max_rate_per_sec := 0 } }
      ⟨true, false⟩ rfl).2 "sandbox.example" (Or.inr rfl) (by decide) (by decide)
      (by decide) (by decide)⟩
